import Mathlib

/-!
Verification of the authentication / session-management core of the
Recipe-AI application (src/services/auth_service.py, src/models/user.py,
src/routes/auth.py), as a shallow embedding in Lean 4.

Conventions of the embedding:
* machine timestamps (`datetime.utcnow()`) are `Nat` seconds, passed
  explicitly to each operation (the clock is an external collaborator);
* the random sources (`bcrypt.gensalt`, the JWT `jti` generator) are
  externalized as explicit parameters;
* Python `None`/empty strings for text columns are modelled as `""` or
  `Option String`;
* fallible Python code (raising exceptions) returns `Except`;
* the SQLAlchemy store is a `DBState` of lists of records, committed
  state passed explicitly; `Model.query.filter_by(...).first()` becomes
  `List.find?`.
-/

deriving instance DecidableEq for Except

/-- Python `str.strip` whitespace set (space, tab, newline, CR, VT, FF). -/
def pyIsSpace (c : Char) : Bool :=
  c = ' ' || c = '\t' || c = '\n' || c = '\r' || c = Char.ofNat 11 || c = Char.ofNat 12

/-- Python `str.strip()`: drop leading and trailing whitespace. -/
def pyStrip (s : String) : String :=
  ⟨((s.data.dropWhile pyIsSpace).reverse.dropWhile pyIsSpace).reverse⟩

/-- Python `str.lower()` (ASCII letters; the repository only handles ASCII emails). -/
def pyLower (s : String) : String :=
  ⟨s.data.map Char.toLower⟩

/-- The email normalization `email.lower().strip()` used throughout the service. -/
def normalizeEmail (email : String) : String :=
  pyStrip (pyLower email)

/-- Split a character list at the first occurrence of `sep`, if any. -/
def splitAtChar (sep : Char) : List Char → Option (List Char × List Char)
  | [] => none
  | c :: cs =>
    if c = sep then some ([], cs)
    else
      match splitAtChar sep cs with
      | none => none
      | some (a, b) => some (c :: a, b)

/-- Split a character list at the last occurrence of `sep`, if any. -/
def splitAtLastChar (sep : Char) : List Char → Option (List Char × List Char)
  | [] => none
  | c :: cs =>
    match splitAtLastChar sep cs with
    | some (a, b) => some (c :: a, b)
    | none => if c = sep then some ([], cs) else none

/-- Strip a concrete leading character sequence, returning the remainder. -/
def dropLeading : List Char → List Char → Option (List Char)
  | [], cs => some cs
  | _ :: _, [] => none
  | p :: ps, c :: cs => if c = p then dropLeading ps cs else none

/-! ## Password hasher (src/models/user.py, bcrypt)

The bcrypt library itself is external to the repository; it is modelled
functionally, faithful to its contract: `hashpw` embeds the random salt in
the produced hash string, `checkpw` re-derives the comparison from the
embedded salt, and `checkpw` raises `ValueError("Invalid salt")` when the
stored value is not a well-formed bcrypt hash.  The salt (drawn by
`bcrypt.gensalt()`) is abstracted as a `Nat` seed embedded injectively as a
run of `a` characters, and the digest part of the hash determines the
hashed plaintext, so that `checkpw p (hashpw q s)` holds exactly when
`p = q`. -/

/-- Modelled `bcrypt.hashpw(password, salt)`: a well-formed hash string
`"$2b$12$" ++ salt-run ++ "$" ++ digest`. -/
def bcryptHashpw (password : String) (salt : Nat) : String :=
  ⟨"$2b$12$".data ++ List.replicate salt 'a' ++ '$' :: password.data⟩

/-- Modelled `bcrypt.checkpw(password, storedHash)`: raises (`Except.error`)
on a stored value that does not parse as a bcrypt hash, otherwise compares
the re-derived hash with the stored one. -/
def bcryptCheckpw (password : String) (storedHash : String) : Except String Bool :=
  match dropLeading "$2b$12$".data storedHash.data with
  | none => .error "Invalid salt"
  | some rest =>
    match splitAtChar '$' rest with
    | none => .error "Invalid salt"
    | some (saltRun, _) =>
      if saltRun.all (fun c => c = 'a') then
        .ok (storedHash == bcryptHashpw password saltRun.length)
      else .error "Invalid salt"

/-- `User.check_password` (src/models/user.py lines 63-68): returns `False`
for an empty password or an absent/empty stored hash; otherwise calls
`bcrypt.checkpw`, whose exceptions propagate to the caller. -/
def check_password (password : String) (password_hash : String) : Except String Bool :=
  if password = "" || password_hash = "" then .ok false
  else bcryptCheckpw password password_hash

/-- `User.set_password` (src/models/user.py lines 55-61): raises on an empty
password, otherwise stores the bcrypt hash of the password under a fresh salt. -/
def set_password (password : String) (salt : Nat) : Except String String :=
  if password = "" then .error "Password cannot be empty"
  else .ok (bcryptHashpw password salt)

/-! ## Credential validator (src/services/auth_service.py lines 29-53) -/

/-- Character class `[a-zA-Z0-9._%+-]` (the local part of the email regex). -/
def emailLocalChar (c : Char) : Bool :=
  c.isAlpha || c.isDigit || c = '.' || c = '_' || c = '%' || c = '+' || c = '-'

/-- Character class `[a-zA-Z0-9.-]` (the domain part of the email regex). -/
def emailDomainChar (c : Char) : Bool :=
  c.isAlpha || c.isDigit || c = '.' || c = '-'

/-- Full match of the email pattern body
`[a-zA-Z0-9._%+-]+@[a-zA-Z0-9.-]+\.[a-zA-Z]\x7b2,\x7d`.
A match decomposes the string at its unique `@` (no listed class contains
`@`, so the split is at the first and only `@`), and the final dot of the
domain part must be followed by 2+ letters (the TLD contains no dot, so it
is the last dot). -/
def matchEmailCore (cs : List Char) : Bool :=
  match splitAtChar '@' cs with
  | none => false
  | some (localPart, domainPart) =>
    !localPart.isEmpty && localPart.all emailLocalChar &&
    (match splitAtLastChar '.' domainPart with
     | none => false
     | some (d, tld) =>
       !d.isEmpty && d.all emailDomainChar && decide (2 ≤ tld.length) && tld.all Char.isAlpha)

/-- `AuthenticationService.validate_email` (lines 29-32): Python
`re.match(r'^...$', email)`.  `$` (without `re.M`) also matches just before
a single trailing newline, so a string ending in `'\n'` matches when its
body does. -/
def validate_email (email : String) : Bool :=
  matchEmailCore email.data ||
  (match email.data.getLast? with
   | some c => c = '\n' && matchEmailCore email.data.dropLast
   | none => false)

/-- The special-character class of the password policy:
`[!@#$%^&*(),.?":\x7b\x7d|<>]`. -/
def specialChars : List Char :=
  ['!', '@', '#', '$', '%', Char.ofNat 94, '&', '*', '(', ')', ',', '.', '?',
   Char.ofNat 34, ':', Char.ofNat 123, Char.ofNat 125, '|', '<', '>']

/-- Reason string for the length rule. -/
def msgLength : String := "Password must be at least 8 characters long"

/-- Reason string for the uppercase rule. -/
def msgUpper : String := "Password must contain at least one uppercase letter"

/-- Reason string for the lowercase rule. -/
def msgLower : String := "Password must contain at least one lowercase letter"

/-- Reason string for the digit rule. -/
def msgNumber : String := "Password must contain at least one number"

/-- Reason string for the special-character rule. -/
def msgSpecial : String := "Password must contain at least one special character"

/-- `AuthenticationService.validate_password` (lines 34-53): checks the five
policy rules in declaration order (length ≥ 8, `[A-Z]`, `[a-z]`, `\d`,
special), appending one reason per unmet rule; returns
`(errors == [], errors)`. -/
def validate_password (password : String) : Bool × List String :=
  let errors : List String :=
    (if password.data.length < 8 then [msgLength] else []) ++
    (if !password.data.any (fun c => 65 ≤ c.toNat && c.toNat ≤ 90) then [msgUpper] else []) ++
    (if !password.data.any (fun c => 97 ≤ c.toNat && c.toNat ≤ 122) then [msgLower] else []) ++
    (if !password.data.any Char.isDigit then [msgNumber] else []) ++
    (if !password.data.any (fun c => specialChars.contains c) then [msgSpecial] else [])
  (errors.isEmpty, errors)

example : validate_password "Str0ng!Pass" = (true, []) := by decide
example : (validate_password "abc").1 = false := by decide
example : validate_email "ann@example.com" = true := by decide
example : validate_email " a@b.com " = false := by decide
example : validate_email "A@B.com" = true := by decide
example : normalizeEmail " A@B.com " = "a@b.com" := by decide
example : check_password "x" "nothash" = .error "Invalid salt" := by decide
example : check_password "x" (bcryptHashpw "x" 3) = .ok true := by decide
example : check_password "y" (bcryptHashpw "x" 3) = .ok false := by decide

/-! ## Data model (src/models/user.py) -/

/-- Row of the `users` table (the columns the authentication core reads or
writes; preference/notification columns not touched by any claim are
omitted from the projection). -/
structure UserRec where
  id : Nat
  name : String
  email : String
  password_hash : String
  preferred_language : String := "en"
  phone : Option String := none
  bio : Option String := none
  is_active : Bool := true
  last_login_at : Option Nat := none
deriving DecidableEq

/-- Row of the `user_sessions` table (`UserSession`). -/
structure SessionRec where
  user_id : Nat
  session_token : String
  ip_address : Option String := none
  user_agent : Option String := none
  is_active : Bool := true
  created_at : Nat
  last_activity : Nat
  expires_at : Nat
deriving DecidableEq

/-- `UserSession.is_expired` (src/models/user.py lines 245-247):
`datetime.utcnow() > self.expires_at`. -/
def SessionRec.is_expired (s : SessionRec) (now : Nat) : Bool :=
  now > s.expires_at

/-- `UserSession.revoke` (lines 253-255): sets `is_active = False`. -/
def SessionRec.revoke (s : SessionRec) : SessionRec :=
  { s with is_active := false }

/-- `UserSession.update_activity` (lines 249-251): refreshes `last_activity`. -/
def SessionRec.update_activity (s : SessionRec) (now : Nat) : SessionRec :=
  { s with last_activity := now }

/-- A flask-jwt-extended token: subject identity, absolute expiry
(`exp` claim, `now + expires_delta`), unique token id (`jti`), additional
claims, and whether it is a refresh token. -/
structure Token where
  identity : Nat
  exp : Nat
  jti : String
  claims : List (String × String) := []
  is_refresh : Bool := false
deriving DecidableEq

/-- `create_access_token(identity, expires_delta=1h, additional_claims)`:
the `jti` is drawn from the external random source. -/
def create_access_token (identity : Nat) (now : Nat) (claims : List (String × String))
    (jti : String) : Token :=
  { identity, exp := now + 3600, jti, claims, is_refresh := false }

/-- `create_refresh_token(identity, expires_delta=30d)`: minimal claims. -/
def create_refresh_token (identity : Nat) (now : Nat) (jti : String) : Token :=
  { identity, exp := now + 30 * 86400, jti, claims := [], is_refresh := true }

/-- The committed state of the relational store: `users` and
`user_sessions` tables, plus the autoincrement counter for user ids. -/
structure DBState where
  users : List UserRec
  sessions : List SessionRec
  nextUserId : Nat := 1
deriving DecidableEq

/-- The service result payload `{success, message, ...}`; token payload
fields are `none` when the operation does not return them. -/
structure OpResult where
  success : Bool
  message : String
  access_token : Option Token := none
  refresh_token : Option Token := none
deriving DecidableEq

/-- `User.query.get(user_id)`. -/
def findUserById (db : DBState) (user_id : Nat) : Option UserRec :=
  db.users.find? (fun u => u.id == user_id)

/-- `User.query.filter_by(email=email).first()`. -/
def findUserByEmail (db : DBState) (email : String) : Option UserRec :=
  db.users.find? (fun u => u.email == email)

/-- `User.query.filter_by(email=email, is_active=True).first()`. -/
def findActiveUserByEmail (db : DBState) (email : String) : Option UserRec :=
  db.users.find? (fun u => u.email == email && u.is_active)

/-- `UserSession.query.filter_by(session_token=t).first()`. -/
def findSessionByToken (db : DBState) (t : String) : Option SessionRec :=
  db.sessions.find? (fun s => s.session_token == t)

/-- `UserSession.query.filter_by(session_token=t, is_active=True).first()`. -/
def findActiveSessionByToken (db : DBState) (t : String) : Option SessionRec :=
  db.sessions.find? (fun s => s.session_token == t && s.is_active)

/-- `User.is_premium_user` (src/models/user.py lines 179-182): placeholder,
always `False`. -/
def is_premium_user (_ : UserRec) : Bool := false

/-! ## Authentication service operations (src/services/auth_service.py)

Each operation takes the committed `DBState` and returns its result
together with the new committed state; the clock (`now`) and random draws
(`jti`, bcrypt salt) are explicit parameters, and the fallibility of the
session-store insert inside `create_user_session` (whose exception the
source catches and converts to `None`) is the explicit `insertOk` flag. -/

/-- `AuthenticationService.create_user_session` (lines 208-230): decodes the
token's `exp`, inserts a `UserSession` row keyed by the token's `jti`, and
commits.  Any failure (store error — `insertOk = false` — or the unique
constraint on `session_token`) is caught inside and turned into `none`,
leaving the state unchanged. -/
def create_user_session (db : DBState) (user_id : Nat) (token : Token)
    (ip_address user_agent : Option String) (now : Nat) (insertOk : Bool) :
    Option SessionRec × DBState :=
  let dup := db.sessions.any (fun s => s.session_token == token.jti)
  if insertOk && !dup then
    let s : SessionRec :=
      { user_id, session_token := token.jti, ip_address, user_agent,
        is_active := true, created_at := now, last_activity := now,
        expires_at := token.exp }
    (some s, { db with sessions := db.sessions ++ [s] })
  else (none, db)

/-- `AuthenticationService.register_user` (lines 55-123): validates name,
raw email format, password policy; normalizes the email; rejects a
duplicate; creates the user with a bcrypt-hashed password; issues the
access/refresh pair; records a session (ignoring its failure); returns the
profile and both tokens. -/
def register_user (db : DBState) (name email password preferred_language : String)
    (phone bio : Option String) (now : Nat) (jtiA jtiR : String) (salt : Nat)
    (insertOk : Bool) : OpResult × DBState :=
  if name = "" || pyStrip name = "" then
    ({ success := false, message := "Name is required" }, db)
  else if email = "" || !validate_email email then
    ({ success := false, message := "Valid email is required" }, db)
  else
    let email := normalizeEmail email
    let (is_valid_password, password_errors) := validate_password password
    if !is_valid_password then
      ({ success := false, message := String.intercalate "; " password_errors }, db)
    else if (findUserByEmail db email).isSome then
      ({ success := false, message := "Email already registered" }, db)
    else
      match set_password password salt with
      | .error _ =>
        ({ success := false, message := "Registration failed" }, db)
      | .ok hash =>
        let user : UserRec :=
          { id := db.nextUserId, name := pyStrip name, email,
            password_hash := hash, preferred_language, phone, bio }
        let db1 : DBState :=
          { db with users := db.users ++ [user], nextUserId := db.nextUserId + 1 }
        let access := create_access_token user.id now
          [("user_type", "regular"), ("email", user.email)] jtiA
        let refresh := create_refresh_token user.id now jtiR
        let (_, db2) := create_user_session db1 user.id access none none now insertOk
        ({ success := true, message := "User registered successfully",
           access_token := some access, refresh_token := some refresh }, db2)

/-- `AuthenticationService.authenticate_user` (lines 125-177): requires
non-empty email and password; looks up an active user by normalized email;
a missing user or failed password check yields the one generic
`Invalid credentials` failure; a `check_password` exception is caught at
the service boundary as `Authentication failed`.  On success updates
`last_login_at`, issues the token pair, records a session. -/
def authenticate_user (db : DBState) (email password : String)
    (ip_address user_agent : Option String) (now : Nat) (jtiA jtiR : String)
    (insertOk : Bool) : OpResult × DBState :=
  if email = "" || password = "" then
    ({ success := false, message := "Email and password are required" }, db)
  else
    let email := normalizeEmail email
    match findActiveUserByEmail db email with
    | none => ({ success := false, message := "Invalid credentials" }, db)
    | some user =>
      match check_password password user.password_hash with
      | .error _ => ({ success := false, message := "Authentication failed" }, db)
      | .ok false => ({ success := false, message := "Invalid credentials" }, db)
      | .ok true =>
        let db1 : DBState :=
          { db with users := db.users.map (fun u =>
              if u.id == user.id then { u with last_login_at := some now } else u) }
        let claims :=
          [("user_type", if is_premium_user user then "premium" else "regular"),
           ("email", user.email), ("preferred_language", user.preferred_language)]
        let access := create_access_token user.id now claims jtiA
        let refresh := create_refresh_token user.id now jtiR
        let (_, db2) := create_user_session db1 user.id access ip_address user_agent now insertOk
        ({ success := true, message := "Login successful",
           access_token := some access, refresh_token := some refresh }, db2)

/-- `AuthenticationService.refresh_access_token` (lines 179-206): fails for
a missing or inactive account; on success issues a new access token only,
touching nothing in the store. -/
def refresh_access_token (db : DBState) (user_id : Nat) (now : Nat) (jti : String) :
    OpResult × DBState :=
  match findUserById db user_id with
  | none => ({ success := false, message := "User not found or inactive" }, db)
  | some user =>
    if !user.is_active then
      ({ success := false, message := "User not found or inactive" }, db)
    else
      let claims :=
        [("user_type", if is_premium_user user then "premium" else "regular"),
         ("email", user.email), ("preferred_language", user.preferred_language)]
      ({ success := true, message := "",
         access_token := some (create_access_token user.id now claims jti) }, db)

/-- `AuthenticationService.revoke_user_session` (lines 232-244): finds the
session by token (active or not), revokes it, commits; `True` iff a record
existed. -/
def revoke_user_session (db : DBState) (session_token : String) : Bool × DBState :=
  match findSessionByToken db session_token with
  | some _ =>
    (true, { db with sessions := db.sessions.map (fun s =>
        if s.session_token == session_token then s.revoke else s) })
  | none => (false, db)

/-- The `/logout` route (src/routes/auth.py lines 119-134): calls
`revoke_user_session` with the caller token's `jti`, ignores its boolean,
and always responds `success=True, "Logged out successfully"`. -/
def logout_route (db : DBState) (jti : String) : OpResult × DBState :=
  let (_, db') := revoke_user_session db jti
  ({ success := true, message := "Logged out successfully" }, db')

/-- `AuthenticationService.revoke_all_user_sessions` (lines 246-258):
revokes every active session of the user, commits, returns the count. -/
def revoke_all_user_sessions (db : DBState) (user_id : Nat) : Nat × DBState :=
  let active := db.sessions.filter (fun s => s.user_id == user_id && s.is_active)
  (active.length, { db with sessions := db.sessions.map (fun s =>
      if s.user_id == user_id && s.is_active then s.revoke else s) })

/-- `AuthenticationService.change_user_password` (lines 295-325): missing
user fails; wrong current password fails with `Current password is
incorrect` (a `check_password` exception is caught as `Password change
failed` with rollback); a policy-weak new password fails with the joined
reasons; otherwise re-hashes under a fresh salt, commits, and revokes all
of the user's sessions. -/
def change_user_password (db : DBState) (user_id : Nat)
    (current_password new_password : String) (salt : Nat) : OpResult × DBState :=
  match findUserById db user_id with
  | none => ({ success := false, message := "User not found" }, db)
  | some user =>
    match check_password current_password user.password_hash with
    | .error _ => ({ success := false, message := "Password change failed" }, db)
    | .ok false => ({ success := false, message := "Current password is incorrect" }, db)
    | .ok true =>
      let (is_valid_password, password_errors) := validate_password new_password
      if !is_valid_password then
        ({ success := false, message := String.intercalate "; " password_errors }, db)
      else
        match set_password new_password salt with
        | .error _ => ({ success := false, message := "Password change failed" }, db)
        | .ok hash =>
          let db1 : DBState :=
            { db with users := db.users.map (fun u =>
                if u.id == user_id then { u with password_hash := hash } else u) }
          let (_, db2) := revoke_all_user_sessions db1 user_id
          ({ success := true, message := "Password changed successfully" }, db2)

/-- `AuthenticationService.deactivate_user_account` (lines 406-426): flips
the user's `is_active` to `False`, commits, revokes all sessions. -/
def deactivate_user_account (db : DBState) (user_id : Nat) : OpResult × DBState :=
  match findUserById db user_id with
  | none => ({ success := false, message := "User not found" }, db)
  | some _ =>
    let db1 : DBState :=
      { db with users := db.users.map (fun u =>
          if u.id == user_id then { u with is_active := false } else u) }
    let (_, db2) := revoke_all_user_sessions db1 user_id
    ({ success := true, message := "Account deactivated successfully" }, db2)

/-- `AuthenticationService.delete_user_account` (lines 428-448): deletes
the user row; the `all, delete-orphan` cascade on `user_sessions` removes
the user's session rows. -/
def delete_user_account (db : DBState) (user_id : Nat) : OpResult × DBState :=
  match findUserById db user_id with
  | none => ({ success := false, message := "User not found" }, db)
  | some _ =>
    ({ success := true, message := "Account deleted permanently" },
     { db with users := db.users.filter (fun u => !(u.id == user_id)),
               sessions := db.sessions.filter (fun s => !(s.user_id == user_id)) })

/-- `AuthenticationService.is_session_valid` (lines 507-532): finds an
active session by token; absent means invalid; an expired one is revoked
and committed on the spot and reported invalid; otherwise `last_activity`
is refreshed and committed and the session is valid. -/
def is_session_valid (db : DBState) (session_token : String) (now : Nat) :
    Bool × DBState :=
  match findActiveSessionByToken db session_token with
  | none => (false, db)
  | some session =>
    if session.is_expired now then
      (false, { db with sessions := db.sessions.map (fun s =>
          if s.session_token == session_token then s.revoke else s) })
    else
      (true, { db with sessions := db.sessions.map (fun s =>
          if s.session_token == session_token then s.update_activity now else s) })

/-! ## Claim C7: password policy -/

lemma anyUpper_iff (p : String) :
    (p.data.any (fun c => 65 ≤ c.toNat && c.toNat ≤ 90) = true) ↔
      (∃ c ∈ p.data, 65 ≤ c.toNat ∧ c.toNat ≤ 90) := by simp

lemma anyLower_iff (p : String) :
    (p.data.any (fun c => 97 ≤ c.toNat && c.toNat ≤ 122) = true) ↔
      (∃ c ∈ p.data, 97 ≤ c.toNat ∧ c.toNat ≤ 122) := by simp

lemma anyDigit_iff (p : String) :
    (p.data.any Char.isDigit = true) ↔ (∃ c ∈ p.data, c.isDigit = true) := by simp

lemma anySpecial_iff (p : String) :
    (p.data.any (fun c => specialChars.contains c) = true) ↔
      (∃ c ∈ p.data, c ∈ specialChars) := by simp

lemma vp_snd (p : String) :
    (validate_password p).2 =
      (if p.data.length < 8 then [msgLength] else []) ++
      (if !p.data.any (fun c => 65 ≤ c.toNat && c.toNat ≤ 90) then [msgUpper] else []) ++
      (if !p.data.any (fun c => 97 ≤ c.toNat && c.toNat ≤ 122) then [msgLower] else []) ++
      (if !p.data.any Char.isDigit then [msgNumber] else []) ++
      (if !p.data.any (fun c => specialChars.contains c) then [msgSpecial] else []) := rfl

lemma vp_fst (p : String) : (validate_password p).1 = (validate_password p).2.isEmpty := rfl

lemma count_if_self (m : String) (c : Prop) [Decidable c] :
    List.count m (if c then [m] else []) = if c then 1 else 0 := by
  split <;> simp

lemma count_if_ne (m m' : String) (c : Prop) [Decidable c] (h : m' ≠ m) :
    List.count m (if c then [m'] else []) = 0 := by
  split <;> simp [List.count_cons, h]

lemma sublist_if (m : String) (c : Prop) [Decidable c] :
    (if c then [m] else []).Sublist [m] := by
  split <;> simp

lemma if_nil_iff (m : String) (c : Prop) [Decidable c] :
    (if c then [m] else []) = [] ↔ ¬ c := by
  split <;> simp_all

/-- C7: `validate_password` returns an empty reason list iff the password
has length at least 8, an uppercase letter, a lowercase letter, a digit and
a special character; each unmet rule contributes exactly one reason string,
and the reasons appear in the declaration order length, uppercase,
lowercase, digit, special. -/
theorem validate_password_policy (p : String) :
    ((validate_password p).2 = [] ↔ (validate_password p).1 = true) ∧
    ((validate_password p).2 = [] ↔
      (8 ≤ p.data.length ∧
       (∃ c ∈ p.data, 65 ≤ c.toNat ∧ c.toNat ≤ 90) ∧
       (∃ c ∈ p.data, 97 ≤ c.toNat ∧ c.toNat ≤ 122) ∧
       (∃ c ∈ p.data, c.isDigit = true) ∧
       (∃ c ∈ p.data, c ∈ specialChars))) ∧
    (validate_password p).2.Sublist [msgLength, msgUpper, msgLower, msgNumber, msgSpecial] ∧
    ((validate_password p).2.count msgLength = if 8 ≤ p.data.length then 0 else 1) ∧
    ((validate_password p).2.count msgUpper =
      if ∃ c ∈ p.data, 65 ≤ c.toNat ∧ c.toNat ≤ 90 then 0 else 1) ∧
    ((validate_password p).2.count msgLower =
      if ∃ c ∈ p.data, 97 ≤ c.toNat ∧ c.toNat ≤ 122 then 0 else 1) ∧
    ((validate_password p).2.count msgNumber =
      if ∃ c ∈ p.data, c.isDigit = true then 0 else 1) ∧
    ((validate_password p).2.count msgSpecial =
      if ∃ c ∈ p.data, c ∈ specialChars then 0 else 1) := by
  have d12 : msgLength ≠ msgUpper := by decide
  have d13 : msgLength ≠ msgLower := by decide
  have d14 : msgLength ≠ msgNumber := by decide
  have d15 : msgLength ≠ msgSpecial := by decide
  have d23 : msgUpper ≠ msgLower := by decide
  have d24 : msgUpper ≠ msgNumber := by decide
  have d25 : msgUpper ≠ msgSpecial := by decide
  have d34 : msgLower ≠ msgNumber := by decide
  have d35 : msgLower ≠ msgSpecial := by decide
  have d45 : msgNumber ≠ msgSpecial := by decide
  refine ⟨?_, ?_, ?_, ?_, ?_, ?_, ?_, ?_⟩
  · rw [vp_fst, List.isEmpty_iff]
  · rw [vp_snd]
    simp only [List.append_eq_nil, if_nil_iff, Bool.not_eq_true', Bool.not_eq_false]
    rw [anyUpper_iff, anyLower_iff, anyDigit_iff, anySpecial_iff, Nat.not_lt]
    tauto
  · rw [vp_snd]
    exact (((((sublist_if _ _).append (sublist_if _ _)).append
      (sublist_if _ _)).append (sublist_if _ _)).append (sublist_if _ _))
  · rw [vp_snd]
    simp only [List.count_append, count_if_self,
      count_if_ne _ _ _ d12.symm, count_if_ne _ _ _ d13.symm,
      count_if_ne _ _ _ d14.symm, count_if_ne _ _ _ d15.symm]
    rcases Nat.lt_or_ge p.data.length 8 with h | h
    · rw [if_pos h, if_neg (Nat.not_le.mpr h)]
    · rw [if_neg (Nat.not_lt.mpr h), if_pos h]
  · rw [vp_snd]
    simp only [List.count_append, count_if_self,
      count_if_ne _ _ _ d12, count_if_ne _ _ _ d23.symm,
      count_if_ne _ _ _ d24.symm, count_if_ne _ _ _ d25.symm]
    have ha := anyUpper_iff p
    rcases hany : p.data.any (fun c => 65 ≤ c.toNat && c.toNat ≤ 90) <;> rw [hany] at ha <;> simp at ha
    · simp [hany]
      rw [if_neg (by simpa using ha)]
    · simp [hany, if_pos ha]
  · rw [vp_snd]
    simp only [List.count_append, count_if_self,
      count_if_ne _ _ _ d13, count_if_ne _ _ _ d23,
      count_if_ne _ _ _ d34.symm, count_if_ne _ _ _ d35.symm]
    have ha := anyLower_iff p
    rcases hany : p.data.any (fun c => 97 ≤ c.toNat && c.toNat ≤ 122) <;> rw [hany] at ha <;> simp at ha
    · simp [hany]
      rw [if_neg (by simpa using ha)]
    · simp [hany, if_pos ha]
  · rw [vp_snd]
    simp only [List.count_append, count_if_self,
      count_if_ne _ _ _ d14, count_if_ne _ _ _ d24,
      count_if_ne _ _ _ d34, count_if_ne _ _ _ d45.symm]
    have ha := anyDigit_iff p
    rcases hany : p.data.any Char.isDigit <;> rw [hany] at ha <;> simp at ha
    · simp [hany]
      rw [if_neg (by simpa using ha)]
    · simp [hany, if_pos ha]
  · rw [vp_snd]
    simp only [List.count_append, count_if_self,
      count_if_ne _ _ _ d15, count_if_ne _ _ _ d25,
      count_if_ne _ _ _ d35, count_if_ne _ _ _ d45]
    have ha := anySpecial_iff p
    rcases hany : p.data.any (fun c => specialChars.contains c) <;> rw [hany] at ha <;> simp at ha
    · simp [hany]
      rw [if_neg (by simpa using ha)]
    · simp [hany, if_pos ha]

lemma dropLeading_append (ps rest : List Char) : dropLeading ps (ps ++ rest) = some rest := by
  induction ps with
  | nil => rfl
  | cons c cs ih => simp [dropLeading, ih]

lemma splitAtChar_salt (s : Nat) (rest : List Char) :
    splitAtChar '$' (List.replicate s 'a' ++ '$' :: rest) = some (List.replicate s 'a', rest) := by
  induction s with
  | zero => simp [splitAtChar]
  | succ n ih => simp [List.replicate_succ, splitAtChar, ih]

lemma data_hashpw (q : String) (s : Nat) :
    (bcryptHashpw q s).data = "$2b$12$".data ++ (List.replicate s 'a' ++ '$' :: q.data) := by
  simp [bcryptHashpw]

lemma hashpw_ne_empty (q : String) (s : Nat) : bcryptHashpw q s ≠ "" := by
  intro h
  have hd : (bcryptHashpw q s).data = [] := by rw [h]
  rw [data_hashpw] at hd
  simp at hd

lemma hashpw_inj_iff (p q : String) (s : Nat) :
    (bcryptHashpw q s = bcryptHashpw p s) ↔ (q = p) := by
  constructor
  · intro h
    have hd : (bcryptHashpw q s).data = (bcryptHashpw p s).data := by rw [h]
    rw [data_hashpw, data_hashpw] at hd
    have h2 := List.append_cancel_left hd
    have h3 := List.append_cancel_left h2
    simp at h3
    cases q; cases p; simp_all
  · intro h; rw [h]

lemma bcryptCheckpw_hashpw (p q : String) (s : Nat) :
    bcryptCheckpw p (bcryptHashpw q s) = .ok (decide (p = q)) := by
  unfold bcryptCheckpw
  rw [data_hashpw]
  simp only [dropLeading_append, splitAtChar_salt]
  have hall : (List.replicate s 'a').all (fun c => decide (c = 'a')) = true := by
    simp [List.all_eq_true, List.mem_replicate]
  simp only [hall, if_true, List.length_replicate]
  congr 1
  rw [Bool.eq_iff_iff]
  simp only [beq_iff_eq, decide_eq_true_eq]
  rw [hashpw_inj_iff]
  exact eq_comm

/-! ## Claim C3: behaviour of the password verify primitive -/

/-- C3 counterexample: for the non-empty malformed stored hash `"nothash"`
and password `"x"`, `check_password` does not return false — the underlying
`bcrypt.checkpw` raises `ValueError("Invalid salt")`, which propagates. -/
theorem check_password_malformed_raises :
    check_password "x" "nothash" = Except.error "Invalid salt" ∧
    check_password "x" "nothash" ≠ Except.ok false := by decide

/-- C3 amended: `check_password` returns false (without raising) for an
absent (empty) stored hash or an absent (empty) password, and never raises
on a well-formed bcrypt hash, where it returns exactly whether the password
matches the hashed plaintext; only a malformed non-empty stored hash
combined with a non-empty password makes bcrypt raise. -/
theorem check_password_amended (p h q : String) (s : Nat) (hp : p ≠ "") :
    check_password p "" = Except.ok false ∧
    check_password "" h = Except.ok false ∧
    check_password p (bcryptHashpw q s) = Except.ok (decide (p = q)) := by
  refine ⟨by simp [check_password], by simp [check_password], ?_⟩
  simp [check_password, hp, hashpw_ne_empty q s, bcryptCheckpw_hashpw]

/-- Witness for the amended C3 theorem at concrete inputs. -/
theorem check_password_amended_witness :
    ("x" : String) ≠ "" ∧
    (check_password "x" "" = Except.ok false ∧
     check_password "" "hh" = Except.ok false ∧
     check_password "x" (bcryptHashpw "y" 2) = Except.ok (decide (("x" : String) = "y"))) :=
  ⟨by decide, check_password_amended "x" "hh" "y" 2 (by decide)⟩

/-! ## Claim C9: refresh issues a new access token only -/

/-- C9: `refresh_access_token` fails with the not-found message and no state
change when the account is missing or inactive; on an active account it
succeeds, returns a fresh one-hour access token carrying the requested
`jti`, returns no refresh token, and leaves the store (users, sessions,
counters) entirely unchanged. -/
theorem refresh_access_token_frame (db : DBState) (user_id now : Nat) (jti : String) :
    ((findUserById db user_id = none ∨
      (∃ u, findUserById db user_id = some u ∧ u.is_active = false)) →
     (refresh_access_token db user_id now jti).1.success = false ∧
     (refresh_access_token db user_id now jti).1.message = "User not found or inactive" ∧
     (refresh_access_token db user_id now jti).2 = db) ∧
    (∀ u, findUserById db user_id = some u → u.is_active = true →
     (refresh_access_token db user_id now jti).1.success = true ∧
     (∃ tok, (refresh_access_token db user_id now jti).1.access_token = some tok ∧
       tok.identity = u.id ∧ tok.exp = now + 3600 ∧ tok.jti = jti ∧ tok.is_refresh = false) ∧
     (refresh_access_token db user_id now jti).1.refresh_token = none ∧
     (refresh_access_token db user_id now jti).2 = db) := by
  constructor
  · rintro (hnone | ⟨u, hu, hinact⟩)
    · simp [refresh_access_token, hnone]
    · simp [refresh_access_token, hu, hinact]
  · intro u hu hact
    simp [refresh_access_token, hu, hact, create_access_token]

/-- Concrete user records and store used by the witnesses below. -/
def wUserActive : UserRec :=
  { id := 2, name := "Ann", email := "ann@example.com",
    password_hash := bcryptHashpw "Str0ng!Pass" 3 }

/-- An inactive (deactivated) user for witnesses. -/
def wUserInactive : UserRec :=
  { id := 1, name := "Bob", email := "bob@example.com",
    password_hash := bcryptHashpw "Als0G00d!" 4, is_active := false }

/-- A session store with one active and one revoked session for witnesses. -/
def wdb : DBState :=
  { users := [wUserInactive, wUserActive],
    sessions :=
      [{ user_id := 2, session_token := "tokA", is_active := true,
         created_at := 50, last_activity := 50, expires_at := 3650 },
       { user_id := 2, session_token := "tokB", is_active := false,
         created_at := 10, last_activity := 20, expires_at := 3610 }],
    nextUserId := 3 }

/-- Witness for C9 at concrete inputs: a missing account, an inactive
account, and the active account. -/
theorem refresh_access_token_frame_witness :
    ((refresh_access_token wdb 99 100 "j1").1.success = false ∧
     (refresh_access_token wdb 99 100 "j1").1.message = "User not found or inactive" ∧
     (refresh_access_token wdb 99 100 "j1").2 = wdb) ∧
    ((refresh_access_token wdb 1 100 "j2").1.success = false ∧
     (refresh_access_token wdb 1 100 "j2").1.message = "User not found or inactive" ∧
     (refresh_access_token wdb 1 100 "j2").2 = wdb) ∧
    ((refresh_access_token wdb 2 100 "j3").1.success = true ∧
     (∃ tok, (refresh_access_token wdb 2 100 "j3").1.access_token = some tok ∧
       tok.identity = wUserActive.id ∧ tok.exp = 100 + 3600 ∧ tok.jti = "j3" ∧
       tok.is_refresh = false) ∧
     (refresh_access_token wdb 2 100 "j3").1.refresh_token = none ∧
     (refresh_access_token wdb 2 100 "j3").2 = wdb) :=
  ⟨(refresh_access_token_frame wdb 99 100 "j1").1 (Or.inl (by decide)),
   (refresh_access_token_frame wdb 1 100 "j2").1 (Or.inr ⟨wUserInactive, by decide, by decide⟩),
   (refresh_access_token_frame wdb 2 100 "j3").2 wUserActive (by decide) (by decide)⟩

/-! ## Claims C5 and C10: session validity -/

lemma mem_token_unique {l : List SessionRec}
    (hu : l.Pairwise (fun a b => a.session_token ≠ b.session_token))
    {a b : SessionRec} (ha : a ∈ l) (hb : b ∈ l)
    (h : a.session_token = b.session_token) : a = b := by
  induction l with
  | nil => cases ha
  | cons x xs ih =>
    rcases List.pairwise_cons.mp hu with ⟨hx, hxs⟩
    rcases List.mem_cons.mp ha with rfl | ha' <;> rcases List.mem_cons.mp hb with rfl | hb'
    · rfl
    · exact absurd h (hx _ hb')
    · exact absurd h.symm (hx _ ha')
    · exact ih hxs ha' hb'

lemma findActive_eq_some_of_mem {db : DBState} {t : String} {s : SessionRec}
    (hu : db.sessions.Pairwise (fun a b => a.session_token ≠ b.session_token))
    (hs : s ∈ db.sessions) (ht : s.session_token = t) (hact : s.is_active = true) :
    findActiveSessionByToken db t = some s := by
  cases hf : findActiveSessionByToken db t with
  | none =>
    exfalso
    have := List.find?_eq_none.mp hf s hs
    simp [ht, hact] at this
  | some s' =>
    have hmem := List.mem_of_find?_eq_some hf
    have hpred := List.find?_some hf
    simp only [Bool.and_eq_true, beq_iff_eq] at hpred
    rw [mem_token_unique hu hmem hs (hpred.1.trans ht.symm)]

/-- C10: an active but expired session (`expires_at` strictly in the past)
makes `is_session_valid` return false and, as a side effect, permanently
revokes the session record: its `is_active` is set to false and committed,
while the users table is untouched. -/
theorem is_session_valid_expired_revokes (db : DBState) (t : String) (now : Nat)
    (hu : db.sessions.Pairwise (fun a b => a.session_token ≠ b.session_token))
    (s : SessionRec) (hs : s ∈ db.sessions) (ht : s.session_token = t)
    (hact : s.is_active = true) (hexp : s.expires_at < now) :
    (is_session_valid db t now).1 = false ∧
    (∀ x ∈ (is_session_valid db t now).2.sessions, x.session_token = t →
      x.is_active = false) ∧
    (is_session_valid db t now).2.users = db.users := by
  have hfind := findActive_eq_some_of_mem hu hs ht hact
  have hexp' : s.is_expired now = true := by
    simp [SessionRec.is_expired, hexp]
  refine ⟨?_, ?_, ?_⟩
  · simp [is_session_valid, hfind, hexp']
  · intro x hx hxt
    simp only [is_session_valid, hfind, hexp', if_true] at hx
    simp only [List.mem_map] at hx
    obtain ⟨y, hy, rfl⟩ := hx
    by_cases hyt : y.session_token == t
    · simp [hyt, SessionRec.revoke]
    · simp only [hyt, if_false] at hxt ⊢
      exact absurd (beq_iff_eq.mpr hxt) hyt
  · simp [is_session_valid, hfind, hexp']

/-- C5 counterexample: at the boundary instant `now = expires_at` the code
reports the session valid (its `is_expired` uses a strict `now >
expires_at`), although no session with that token satisfies
`now < expires_at`, refuting the claimed iff. -/
theorem is_session_valid_boundary :
    (is_session_valid wdb "tokA" 3650).1 = true ∧
    (∀ s ∈ wdb.sessions, s.session_token = "tokA" → ¬ (3650 < s.expires_at)) := by
  decide

/-- C5 amended: with the session-token unique constraint, `is_session_valid`
returns true iff an active session with that token exists whose expiry has
not strictly passed (`now ≤ expires_at` — the code treats the boundary
instant `now = expires_at` as still valid); on a true result it refreshes
that session's `last_activity` to `now`. -/
theorem is_session_valid_iff (db : DBState) (t : String) (now : Nat)
    (hu : db.sessions.Pairwise (fun a b => a.session_token ≠ b.session_token)) :
    ((is_session_valid db t now).1 = true ↔
      (∃ s ∈ db.sessions, s.session_token = t ∧ s.is_active = true ∧ now ≤ s.expires_at)) ∧
    ((is_session_valid db t now).1 = true →
      ∀ x ∈ (is_session_valid db t now).2.sessions, x.session_token = t →
        x.last_activity = now) := by
  constructor
  · constructor
    · intro hres
      cases hf : findActiveSessionByToken db t with
      | none => simp [is_session_valid, hf] at hres
      | some s' =>
        have hmem := List.mem_of_find?_eq_some hf
        have hpred := List.find?_some hf
        simp only [Bool.and_eq_true, beq_iff_eq] at hpred
        refine ⟨s', hmem, hpred.1, hpred.2, ?_⟩
        by_contra hgt
        have : s'.is_expired now = true := by
          simp [SessionRec.is_expired]; omega
        simp [is_session_valid, hf, this] at hres
    · rintro ⟨s, hs, ht, hact, hle⟩
      have hfind := findActive_eq_some_of_mem hu hs ht hact
      have : s.is_expired now = false := by
        simp [SessionRec.is_expired]; omega
      simp [is_session_valid, hfind, this]
  · intro hres x hx hxt
    cases hf : findActiveSessionByToken db t with
    | none => simp [is_session_valid, hf] at hres
    | some s' =>
      cases hexp : s'.is_expired now with
      | true => simp [is_session_valid, hf, hexp] at hres
      | false =>
        simp only [is_session_valid, hf, hexp, Bool.false_eq_true, if_false] at hx
        simp only [List.mem_map] at hx
        obtain ⟨y, hy, rfl⟩ := hx
        by_cases hyt : y.session_token == t
        · simp [hyt, SessionRec.update_activity]
        · simp only [hyt, if_false] at hxt ⊢
          exact absurd (beq_iff_eq.mpr hxt) hyt

/-- Witness for C10 at a concrete expired session. -/
theorem is_session_valid_expired_revokes_witness :
    wdb.sessions.Pairwise (fun a b => a.session_token ≠ b.session_token) ∧
    ((is_session_valid wdb "tokA" 5000).1 = false ∧
     (∀ x ∈ (is_session_valid wdb "tokA" 5000).2.sessions, x.session_token = "tokA" →
       x.is_active = false) ∧
     (is_session_valid wdb "tokA" 5000).2.users = wdb.users) :=
  ⟨by decide,
   is_session_valid_expired_revokes wdb "tokA" 5000 (by decide)
     { user_id := 2, session_token := "tokA", is_active := true,
       created_at := 50, last_activity := 50, expires_at := 3650 }
     (by decide) rfl rfl (by decide)⟩

/-- Witness for the amended C5 theorem at a concrete valid session. -/
theorem is_session_valid_iff_witness :
    wdb.sessions.Pairwise (fun a b => a.session_token ≠ b.session_token) ∧
    (((is_session_valid wdb "tokA" 100).1 = true ↔
      (∃ s ∈ wdb.sessions, s.session_token = "tokA" ∧ s.is_active = true ∧
        100 ≤ s.expires_at)) ∧
     ((is_session_valid wdb "tokA" 100).1 = true →
      ∀ x ∈ (is_session_valid wdb "tokA" 100).2.sessions, x.session_token = "tokA" →
        x.last_activity = 100)) :=
  ⟨by decide, is_session_valid_iff wdb "tokA" 100 (by decide)⟩

/-! ## Claim C6: credential failures are indistinguishable -/

/-- C6: with non-empty email and password, a login for an email with no
matching active user and a login for an existing active user with a
non-matching password both fail with the identical generic message
`Invalid credentials`. -/
theorem authenticate_generic_failure (db : DBState) (e1 p1 e2 p2 : String)
    (ip ua : Option String) (now : Nat) (jA jR : String) (ok : Bool)
    (he1 : e1 ≠ "") (hp1 : p1 ≠ "") (he2 : e2 ≠ "") (hp2 : p2 ≠ "")
    (hA : ∀ u ∈ db.users, u.email = normalizeEmail e1 → u.is_active = false)
    (hB : ∃ u, findActiveUserByEmail db (normalizeEmail e2) = some u ∧
      check_password p2 u.password_hash = Except.ok false) :
    (authenticate_user db e1 p1 ip ua now jA jR ok).1.success = false ∧
    (authenticate_user db e2 p2 ip ua now jA jR ok).1.success = false ∧
    (authenticate_user db e1 p1 ip ua now jA jR ok).1.message =
      (authenticate_user db e2 p2 ip ua now jA jR ok).1.message ∧
    (authenticate_user db e1 p1 ip ua now jA jR ok).1.message = "Invalid credentials" := by
  have hA' : findActiveUserByEmail db (normalizeEmail e1) = none := by
    rw [findActiveUserByEmail, List.find?_eq_none]
    intro u hu
    by_cases he : u.email = normalizeEmail e1
    · simp [he, hA u hu he]
    · simp [he]
  obtain ⟨u, hu, hcp⟩ := hB
  refine ⟨?_, ?_, ?_, ?_⟩ <;>
    simp [authenticate_user, he1, hp1, he2, hp2, hA', hu, hcp]

/-- Witness for C6: the store `wdb` has no user for `ghost@example.com`,
and `Ann@Example.COM  ` normalizes to the active user's email while the
password is wrong. -/
theorem authenticate_generic_failure_witness :
    ("ghost@example.com" : String) ≠ "" ∧ ("Whatever1!" : String) ≠ "" ∧
    ("Ann@Example.COM" : String) ≠ "" ∧ ("WrongPass1!" : String) ≠ "" ∧
    (∀ u ∈ wdb.users, u.email = normalizeEmail "ghost@example.com" → u.is_active = false) ∧
    (∃ u, findActiveUserByEmail wdb (normalizeEmail "Ann@Example.COM") = some u ∧
      check_password "WrongPass1!" u.password_hash = Except.ok false) ∧
    ((authenticate_user wdb "ghost@example.com" "Whatever1!" none none 100 "j1" "j2" true).1.success = false ∧
     (authenticate_user wdb "Ann@Example.COM" "WrongPass1!" none none 100 "j1" "j2" true).1.success = false ∧
     (authenticate_user wdb "ghost@example.com" "Whatever1!" none none 100 "j1" "j2" true).1.message =
       (authenticate_user wdb "Ann@Example.COM" "WrongPass1!" none none 100 "j1" "j2" true).1.message ∧
     (authenticate_user wdb "ghost@example.com" "Whatever1!" none none 100 "j1" "j2" true).1.message =
       "Invalid credentials") :=
  ⟨by decide, by decide, by decide, by decide, by decide,
   ⟨wUserActive, by decide, by decide⟩,
   authenticate_generic_failure wdb "ghost@example.com" "Whatever1!" "Ann@Example.COM"
     "WrongPass1!" none none 100 "j1" "j2" true (by decide) (by decide) (by decide) (by decide)
     (by decide) ⟨wUserActive, by decide, by decide⟩⟩

/-! ## Claim C8: revocation is idempotent and terminal -/

/-- The operations of the authentication service that touch the store,
packaged for stating whole-service invariants. -/
inductive Op where
  | opRegister (name email password lang : String) (phone bio : Option String)
      (now : Nat) (jtiA jtiR : String) (salt : Nat) (insertOk : Bool)
  | opAuthenticate (email password : String) (ip ua : Option String)
      (now : Nat) (jtiA jtiR : String) (insertOk : Bool)
  | opRefresh (user_id now : Nat) (jti : String)
  | opLogout (token : String)
  | opRevokeAll (user_id : Nat)
  | opChangePassword (user_id : Nat) (cur npw : String) (salt : Nat)
  | opCheckValid (token : String) (now : Nat)
  | opDeactivate (user_id : Nat)
  | opDelete (user_id : Nat)

/-- The state transition of each service operation (result discarded). -/
def stepOp : Op → DBState → DBState
  | .opRegister n e p l ph b now jA jR salt ok, db =>
    (register_user db n e p l ph b now jA jR salt ok).2
  | .opAuthenticate e p ip ua now jA jR ok, db =>
    (authenticate_user db e p ip ua now jA jR ok).2
  | .opRefresh uid now jti, db => (refresh_access_token db uid now jti).2
  | .opLogout t, db => (revoke_user_session db t).2
  | .opRevokeAll uid, db => (revoke_all_user_sessions db uid).2
  | .opChangePassword uid c n salt, db => (change_user_password db uid c n salt).2
  | .opCheckValid t now, db => (is_session_valid db t now).2
  | .opDeactivate uid, db => (deactivate_user_account db uid).2
  | .opDelete uid, db => (delete_user_account db uid).2

/-- Every operation leaves the sessions table in one of four shapes:
unchanged, a per-row rewrite that preserves tokens and never activates a
row, a filter, or an append of a single fresh-token row. -/
lemma stepOp_sessions_shape (op : Op) (db : DBState) :
    (stepOp op db).sessions = db.sessions ∨
    (∃ g : SessionRec → SessionRec,
      (∀ s, (g s).session_token = s.session_token ∧
        ((g s).is_active = true → s.is_active = true)) ∧
      (stepOp op db).sessions = db.sessions.map g) ∨
    (∃ f : SessionRec → Bool, (stepOp op db).sessions = db.sessions.filter f) ∨
    (∃ new : SessionRec,
      (db.sessions.any (fun s => s.session_token == new.session_token)) = false ∧
      (stepOp op db).sessions = db.sessions ++ [new]) := by
  cases op with
  | opRegister n e p l ph b now jA jR salt ok =>
    simp only [stepOp, register_user]
    split
    · exact Or.inl rfl
    split
    · exact Or.inl rfl
    split
    · exact Or.inl rfl
    split
    · exact Or.inl rfl
    split
    · exact Or.inl rfl
    simp only [create_user_session]
    split
    · rename_i hcond
      refine Or.inr (Or.inr (Or.inr ⟨_, ?_, rfl⟩))
      simp only [Bool.and_eq_true, Bool.not_eq_true'] at hcond
      exact hcond.2
    · exact Or.inl rfl
  | opAuthenticate e p ip ua now jA jR ok =>
    simp only [stepOp, authenticate_user]
    split
    · exact Or.inl rfl
    split
    · exact Or.inl rfl
    · split
      · exact Or.inl rfl
      · exact Or.inl rfl
      · simp only [create_user_session, is_premium_user, Bool.false_eq_true, if_false]
        split
        · rename_i hcond
          refine Or.inr (Or.inr (Or.inr ⟨_, ?_, rfl⟩))
          simp only [Bool.and_eq_true, Bool.not_eq_true'] at hcond
          exact hcond.2
        · exact Or.inl rfl
  | opRefresh uid now jti =>
    simp only [stepOp, refresh_access_token]
    split
    · exact Or.inl rfl
    · split
      · exact Or.inl rfl
      · exact Or.inl rfl
  | opLogout t =>
    simp only [stepOp, revoke_user_session]
    split
    · refine Or.inr (Or.inl ⟨_, fun s => ?_, rfl⟩)
      split <;> simp [SessionRec.revoke]
    · exact Or.inl rfl
  | opRevokeAll uid =>
    simp only [stepOp, revoke_all_user_sessions]
    refine Or.inr (Or.inl ⟨_, fun s => ?_, rfl⟩)
    split <;> simp [SessionRec.revoke]
  | opChangePassword uid c n salt =>
    simp only [stepOp, change_user_password]
    split
    · exact Or.inl rfl
    · split
      · exact Or.inl rfl
      · exact Or.inl rfl
      · split
        · exact Or.inl rfl
        · split
          · exact Or.inl rfl
          · simp only [revoke_all_user_sessions]
            refine Or.inr (Or.inl ⟨_, fun s => ?_, rfl⟩)
            split <;> simp [SessionRec.revoke]
  | opCheckValid t now =>
    simp only [stepOp, is_session_valid]
    split
    · exact Or.inl rfl
    · split
      · refine Or.inr (Or.inl ⟨_, fun s => ?_, rfl⟩)
        split <;> simp [SessionRec.revoke]
      · refine Or.inr (Or.inl ⟨_, fun s => ?_, rfl⟩)
        split <;> simp [SessionRec.update_activity]
  | opDeactivate uid =>
    simp only [stepOp, deactivate_user_account]
    split
    · exact Or.inl rfl
    · simp only [revoke_all_user_sessions]
      refine Or.inr (Or.inl ⟨_, fun s => ?_, rfl⟩)
      split <;> simp [SessionRec.revoke]
  | opDelete uid =>
    simp only [stepOp, delete_user_account]
    split
    · exact Or.inl rfl
    · exact Or.inr (Or.inr (Or.inl ⟨_, rfl⟩))

lemma inactive_preserved_map {l : List SessionRec} {t : String}
    {g : SessionRec → SessionRec}
    (hg : ∀ s, (g s).session_token = s.session_token ∧
      ((g s).is_active = true → s.is_active = true))
    (hall : ∀ s ∈ l, s.session_token = t → s.is_active = false) :
    ∀ x ∈ l.map g, x.session_token = t → x.is_active = false := by
  intro x hx hxt
  obtain ⟨y, hy, rfl⟩ := List.mem_map.mp hx
  rcases hg y with ⟨htok, hact⟩
  have hyt : y.session_token = t := by rw [← htok]; exact hxt
  have hyf := hall y hy hyt
  cases hb : (g y).is_active with
  | false => rfl
  | true => rw [hact hb] at hyf; cases hyf

lemma inactive_preserved_append {l : List SessionRec} {t : String} {new : SessionRec}
    (hex : ∃ s ∈ l, s.session_token = t)
    (hall : ∀ s ∈ l, s.session_token = t → s.is_active = false)
    (hdup : (l.any (fun s => s.session_token == new.session_token)) = false) :
    ∀ x ∈ l ++ [new], x.session_token = t → x.is_active = false := by
  intro x hx hxt
  rcases List.mem_append.mp hx with hx' | hx'
  · exact hall x hx' hxt
  · simp only [List.mem_singleton] at hx'
    subst hx'
    obtain ⟨s, hs, hst⟩ := hex
    have hd2 : ∀ y ∈ l, ¬ y.session_token = x.session_token := by simpa using hdup
    exact absurd (hst.trans hxt.symm) (hd2 s hs)

lemma find_token_some_of_ex {db : DBState} {t : String}
    (hex : ∃ s ∈ db.sessions, s.session_token = t) :
    ∃ s', findSessionByToken db t = some s' := by
  obtain ⟨s, hs, ht⟩ := hex
  cases hf : findSessionByToken db t with
  | none =>
    have := List.find?_eq_none.mp hf s hs
    simp [ht] at this
  | some s' => exact ⟨s', rfl⟩

lemma revoke_user_session_spec {db : DBState} {t : String}
    (hex : ∃ s ∈ db.sessions, s.session_token = t) :
    (revoke_user_session db t).1 = true ∧
    (revoke_user_session db t).2.sessions =
      db.sessions.map (fun s => if s.session_token == t then s.revoke else s) ∧
    (revoke_user_session db t).2.users = db.users := by
  obtain ⟨s', hf⟩ := find_token_some_of_ex hex
  simp [revoke_user_session, hf]

lemma revoke_map_all_inactive {l : List SessionRec} {t : String} :
    ∀ x ∈ l.map (fun s => if s.session_token == t then s.revoke else s),
      x.session_token = t → x.is_active = false := by
  intro x hx hxt
  obtain ⟨y, hy, rfl⟩ := List.mem_map.mp hx
  by_cases hb : y.session_token == t
  · simp [hb, SessionRec.revoke]
  · simp only [hb, if_false] at hxt
    exact absurd (beq_iff_eq.mpr hxt) (by simpa using hb)

/-- C8: revoking a session is idempotent — two consecutive
`revoke_user_session` calls on an existing token both return `True` and the
session stays revoked after each — and terminal: no service operation ever
turns an existing session's `is_active` from false back to true. -/
theorem revocation_idempotent_terminal :
    (∀ (db : DBState) (t : String),
      (logout_route db t).1.success = true ∧
      (logout_route (logout_route db t).2 t).1.success = true) ∧
    (∀ (db : DBState) (t : String), (∃ s ∈ db.sessions, s.session_token = t) →
      (revoke_user_session db t).1 = true ∧
      (revoke_user_session (revoke_user_session db t).2 t).1 = true ∧
      (∀ x ∈ (revoke_user_session db t).2.sessions,
        x.session_token = t → x.is_active = false) ∧
      (∀ x ∈ (revoke_user_session (revoke_user_session db t).2 t).2.sessions,
        x.session_token = t → x.is_active = false)) ∧
    (∀ (op : Op) (db : DBState) (t : String),
      (∃ s ∈ db.sessions, s.session_token = t) →
      (∀ s ∈ db.sessions, s.session_token = t → s.is_active = false) →
      ∀ x ∈ (stepOp op db).sessions, x.session_token = t → x.is_active = false) := by
  refine ⟨fun db t => ⟨rfl, rfl⟩, ?_, ?_⟩
  · intro db t hex
    have A := revoke_user_session_spec hex
    have hex2 : ∃ x ∈ (revoke_user_session db t).2.sessions, x.session_token = t := by
      rw [A.2.1]
      obtain ⟨s, hs, ht⟩ := hex
      refine ⟨if s.session_token == t then s.revoke else s,
        List.mem_map_of_mem _ hs, ?_⟩
      by_cases hb : s.session_token == t
      · simp [hb, SessionRec.revoke, ht]
      · exact absurd (beq_iff_eq.mpr ht) (by simpa using hb)
    have B := revoke_user_session_spec hex2
    refine ⟨A.1, B.1, ?_, ?_⟩
    · rw [A.2.1]; exact revoke_map_all_inactive
    · rw [B.2.1]
      intro x hx hxt
      obtain ⟨y, hy, rfl⟩ := List.mem_map.mp hx
      by_cases hb : y.session_token == t
      · simp [hb, SessionRec.revoke]
      · simp only [hb, if_false] at hxt
        exact absurd (beq_iff_eq.mpr hxt) (by simpa using hb)
  · intro op db t hex hall
    rcases stepOp_sessions_shape op db with hsh | ⟨g, hg, hsh⟩ | ⟨f, hsh⟩ | ⟨new, hdup, hsh⟩
    · rw [hsh]; exact hall
    · rw [hsh]; exact inactive_preserved_map hg hall
    · rw [hsh]
      intro x hx hxt
      exact hall x (List.mem_filter.mp hx).1 hxt
    · rw [hsh]; exact inactive_preserved_append hex hall hdup

/-- Witness for C8: double logout of the live session `tokA` of `wdb`, and
the terminal invariant for a concrete logout step on a store whose `tokB`
session is already revoked. -/
theorem revocation_idempotent_terminal_witness :
    ((logout_route wdb "nosuchtoken").1.success = true ∧
     (logout_route (logout_route wdb "nosuchtoken").2 "nosuchtoken").1.success = true) ∧
    (∃ s ∈ wdb.sessions, s.session_token = "tokA") ∧
    (∃ s ∈ wdb.sessions, s.session_token = "tokB") ∧
    (∀ s ∈ wdb.sessions, s.session_token = "tokB" → s.is_active = false) ∧
    ((revoke_user_session wdb "tokA").1 = true ∧
     (revoke_user_session (revoke_user_session wdb "tokA").2 "tokA").1 = true ∧
     (∀ x ∈ (revoke_user_session wdb "tokA").2.sessions,
       x.session_token = "tokA" → x.is_active = false) ∧
     (∀ x ∈ (revoke_user_session (revoke_user_session wdb "tokA").2 "tokA").2.sessions,
       x.session_token = "tokA" → x.is_active = false)) ∧
    (∀ x ∈ (stepOp (Op.opLogout "tokA") wdb).sessions,
      x.session_token = "tokB" → x.is_active = false) :=
  ⟨revocation_idempotent_terminal.1 wdb "nosuchtoken",
   by decide, by decide, by decide,
   revocation_idempotent_terminal.2.1 wdb "tokA" (by decide),
   revocation_idempotent_terminal.2.2 (Op.opLogout "tokA") wdb "tokB" (by decide) (by decide)⟩

/-! ## Claim C2: password change revokes every session -/

/-- C2: with an existing user whose stored hash verifies the supplied
current password and a policy-valid new password, `change_user_password`
succeeds, replaces the stored hash with the hash of the new password, and
leaves every session of that user revoked, so that (under the
session-token unique constraint) every previously held token of that user
reports invalid afterwards. -/
theorem change_password_revokes_all (db : DBState) (uid : Nat)
    (cur npw : String) (salt : Nat) (now : Nat)
    (hu : db.sessions.Pairwise (fun a b => a.session_token ≠ b.session_token))
    (u : UserRec) (hfind : findUserById db uid = some u)
    (hcp : check_password cur u.password_hash = Except.ok true)
    (hpol : (validate_password npw).1 = true) :
    (change_user_password db uid cur npw salt).1.success = true ∧
    (change_user_password db uid cur npw salt).1.message = "Password changed successfully" ∧
    (∀ v ∈ (change_user_password db uid cur npw salt).2.users,
      v.id = uid → v.password_hash = bcryptHashpw npw salt) ∧
    (∀ s ∈ (change_user_password db uid cur npw salt).2.sessions,
      s.user_id = uid → s.is_active = false) ∧
    (∀ s ∈ db.sessions, s.user_id = uid →
      (is_session_valid (change_user_password db uid cur npw salt).2
        s.session_token now).1 = false) := by
  rcases hvp : validate_password npw with ⟨b, errs⟩
  have hb : b = true := by
    have := hpol
    rw [hvp] at this
    exact this
  subst hb
  have hne : npw ≠ "" := by
    intro h
    subst h
    have hfalse : (validate_password "").1 = false := by decide
    rw [hvp] at hfalse
    cases hfalse
  have hsp : set_password npw salt = Except.ok (bcryptHashpw npw salt) := by
    simp [set_password, hne]
  have hred : change_user_password db uid cur npw salt =
      ({ success := true, message := "Password changed successfully" },
       { users := db.users.map (fun v =>
           if v.id == uid then { v with password_hash := bcryptHashpw npw salt } else v),
         sessions := db.sessions.map (fun s =>
           if s.user_id == uid && s.is_active then s.revoke else s),
         nextUserId := db.nextUserId }) := by
    simp [change_user_password, hfind, hcp, hvp, hsp, revoke_all_user_sessions]
  refine ⟨by rw [hred], by rw [hred], ?_, ?_, ?_⟩
  · rw [hred]
    intro v hv hvid
    obtain ⟨y, hy, rfl⟩ := List.mem_map.mp hv
    by_cases hb : y.id == uid
    · simp [hb]
    · simp only [hb, if_false] at hvid
      exact absurd (beq_iff_eq.mpr hvid) (by simpa using hb)
  · rw [hred]
    intro s hs hsid
    obtain ⟨y, hy, rfl⟩ := List.mem_map.mp hs
    by_cases hb : (y.user_id == uid && y.is_active) = true
    · simp [hb, SessionRec.revoke]
    · have hbf : (y.user_id == uid && y.is_active) = false := by simpa using hb
      simp only [hbf, Bool.false_eq_true, if_false] at hsid ⊢
      simp only [Bool.and_eq_true, beq_iff_eq, not_and] at hb
      cases hact : y.is_active with
      | false => rfl
      | true => exact absurd hact (hb hsid)
  · intro s hs hsid
    have hnone : ((db.sessions.map (fun x =>
        if x.user_id == uid && x.is_active then x.revoke else x)).find?
        (fun x => x.session_token == s.session_token && x.is_active)) = none := by
      rw [List.find?_eq_none]
      intro x hx
      obtain ⟨y, hy, rfl⟩ := List.mem_map.mp hx
      by_cases hb : (y.user_id == uid && y.is_active) = true
      · simp [hb, SessionRec.revoke]
      · have hbf : (y.user_id == uid && y.is_active) = false := by simpa using hb
        simp only [hbf, Bool.false_eq_true, if_false]
        simp only [Bool.and_eq_true, beq_iff_eq, not_and] at hb
        intro hcontra
        simp only [Bool.and_eq_true, beq_iff_eq] at hcontra
        have hy_eq : y = s := mem_token_unique hu hy hs hcontra.1
        subst hy_eq
        exact absurd hcontra.2 (by simp [hb hsid])
    have hfan : findActiveSessionByToken (change_user_password db uid cur npw salt).2
        s.session_token = none := by
      rw [hred]
      exact hnone
    simp [is_session_valid, hfan]

/-- Witness for C2: Ann changes her password with the correct current
password and a policy-valid new one; her live session `tokA` is revoked and
invalid afterwards. -/
theorem change_password_revokes_all_witness :
    wdb.sessions.Pairwise (fun a b => a.session_token ≠ b.session_token) ∧
    findUserById wdb 2 = some wUserActive ∧
    check_password "Str0ng!Pass" wUserActive.password_hash = Except.ok true ∧
    (validate_password "N3wPass!word").1 = true ∧
    ((change_user_password wdb 2 "Str0ng!Pass" "N3wPass!word" 7).1.success = true ∧
     (change_user_password wdb 2 "Str0ng!Pass" "N3wPass!word" 7).1.message =
       "Password changed successfully" ∧
     (∀ v ∈ (change_user_password wdb 2 "Str0ng!Pass" "N3wPass!word" 7).2.users,
       v.id = 2 → v.password_hash = bcryptHashpw "N3wPass!word" 7) ∧
     (∀ s ∈ (change_user_password wdb 2 "Str0ng!Pass" "N3wPass!word" 7).2.sessions,
       s.user_id = 2 → s.is_active = false) ∧
     (∀ s ∈ wdb.sessions, s.user_id = 2 →
       (is_session_valid (change_user_password wdb 2 "Str0ng!Pass" "N3wPass!word" 7).2
         s.session_token 100).1 = false)) :=
  ⟨by decide, by decide, by decide, by decide,
   change_password_revokes_all wdb 2 "Str0ng!Pass" "N3wPass!word" 7 100 (by decide)
     wUserActive (by decide) (by decide) (by decide)⟩

/-! ## Claim C4: duplicate registration -/

/-- An empty store, used to exercise registration from scratch. -/
def regdb : DBState := { users := [], sessions := [], nextUserId := 1 }

/-- C4 counterexample: `"A@B.com"` registers fine, but the whitespace-padded
`" a@b.com "` — though it normalizes to the same address — is rejected by
the raw-email format check (run before normalization) with
`Valid email is required`, not with the duplicate-email error. -/
theorem register_whitespace_email_not_duplicate :
    (register_user regdb "Ann" "A@B.com" "Str0ng!Pass" "en" none none 0 "j1" "j2" 3
      true).1.success = true ∧
    normalizeEmail "A@B.com" = normalizeEmail " a@b.com " ∧
    ((register_user
        (register_user regdb "Ann" "A@B.com" "Str0ng!Pass" "en" none none 0 "j1" "j2" 3
          true).2
        "Bob" " a@b.com " "Als0G00d!x" "en" none none 10 "j3" "j4" 4 true).1.success =
      false) ∧
    ((register_user
        (register_user regdb "Ann" "A@B.com" "Str0ng!Pass" "en" none none 0 "j1" "j2" 3
          true).2
        "Bob" " a@b.com " "Als0G00d!x" "en" none none 10 "j3" "j4" 4 true).1.message =
      "Valid email is required") ∧
    ((register_user
        (register_user regdb "Ann" "A@B.com" "Str0ng!Pass" "en" none none 0 "j1" "j2" 3
          true).2
        "Bob" " a@b.com " "Als0G00d!x" "en" none none 10 "j3" "j4" 4 true).1.message ≠
      "Email already registered") := by
  decide

lemma register_success_email_mem {db : DBState} {n e p l : String}
    {ph b : Option String} {now : Nat} {jA jR : String} {salt : Nat} {ok : Bool}
    (h : (register_user db n e p l ph b now jA jR salt ok).1.success = true) :
    ∃ u ∈ (register_user db n e p l ph b now jA jR salt ok).2.users,
      u.email = normalizeEmail e := by
  by_cases h1 : (decide (n = "") || decide (pyStrip n = "")) = true
  · simp [register_user, h1] at h
  by_cases h2 : (decide (e = "") || !validate_email e) = true
  · simp [register_user, h1, h2] at h
  rcases hvp : validate_password p with ⟨bb, errs⟩
  cases bb with
  | false => simp [register_user, h1, h2, hvp] at h
  | true =>
    by_cases h3 : (findUserByEmail db (normalizeEmail e)).isSome = true
    · simp [register_user, h1, h2, hvp, h3] at h
    rcases hsp : set_password p salt with err | hash
    · simp [register_user, h1, h2, hvp, h3, hsp] at h
    simp only [register_user, h1, h2, hvp, h3, hsp, create_user_session,
      Bool.not_true, Bool.false_eq_true, if_false]
    split <;> exact ⟨_, List.mem_append_right _ (List.mem_singleton_self _), rfl⟩

/-- C4 amended: two register calls collide on the duplicate-email error when
both emails pass the raw format validation (which rejects surrounding
whitespace before normalization ever runs) and agree after lower-casing:
if the first call succeeded and the second call's name, email format and
password policy are acceptable, the second fails with
`Email already registered`, for example `"A@B.com"` versus `"a@B.COM"`. -/
theorem register_duplicate_email (db : DBState) (n1 e1 p1 l1 n2 e2 p2 l2 : String)
    (ph1 b1 ph2 b2 : Option String) (now1 now2 : Nat) (jA1 jR1 jA2 jR2 : String)
    (s1 s2 : Nat) (ok1 ok2 : Bool)
    (hsuccess : (register_user db n1 e1 p1 l1 ph1 b1 now1 jA1 jR1 s1 ok1).1.success = true)
    (hn2 : ¬(decide (n2 = "") || decide (pyStrip n2 = "")) = true)
    (he2 : validate_email e2 = true)
    (hp2 : (validate_password p2).1 = true)
    (heq : normalizeEmail e2 = normalizeEmail e1) :
    (register_user (register_user db n1 e1 p1 l1 ph1 b1 now1 jA1 jR1 s1 ok1).2
       n2 e2 p2 l2 ph2 b2 now2 jA2 jR2 s2 ok2).1.success = false ∧
    (register_user (register_user db n1 e1 p1 l1 ph1 b1 now1 jA1 jR1 s1 ok1).2
       n2 e2 p2 l2 ph2 b2 now2 jA2 jR2 s2 ok2).1.message = "Email already registered" := by
  obtain ⟨u, hu, hue⟩ := register_success_email_mem hsuccess
  set db' := (register_user db n1 e1 p1 l1 ph1 b1 now1 jA1 jR1 s1 ok1).2 with hdb'
  have he2' : ¬ e2 = "" := by
    intro hh
    rw [hh] at he2
    exact absurd he2 (by decide)
  have hfind : (findUserByEmail db' (normalizeEmail e2)).isSome = true := by
    rw [heq]
    cases hf : findUserByEmail db' (normalizeEmail e1) with
    | none =>
      have := List.find?_eq_none.mp hf u hu
      simp [hue] at this
    | some v => rfl
  rcases hvp : validate_password p2 with ⟨bb, errs⟩
  have hbb : bb = true := by
    have := hp2
    rw [hvp] at this
    exact this
  subst hbb
  constructor <;> simp [register_user, hn2, he2', he2, hvp, hfind]

/-- Witness for the amended C4 theorem: `"A@B.com"` then `"a@B.COM"` — both
format-valid, same normalized email — collide with the duplicate error. -/
theorem register_duplicate_email_witness :
    (register_user regdb "Ann" "A@B.com" "Str0ng!Pass" "en" none none 0 "j1" "j2" 3
      true).1.success = true ∧
    ¬(decide (("Bob" : String) = "") || decide (pyStrip "Bob" = "")) = true ∧
    validate_email "a@B.COM" = true ∧
    (validate_password "Als0G00d!x").1 = true ∧
    normalizeEmail "a@B.COM" = normalizeEmail "A@B.com" ∧
    ((register_user
        (register_user regdb "Ann" "A@B.com" "Str0ng!Pass" "en" none none 0 "j1" "j2" 3
          true).2
        "Bob" "a@B.COM" "Als0G00d!x" "en" none none 10 "j3" "j4" 4 true).1.success = false ∧
     (register_user
        (register_user regdb "Ann" "A@B.com" "Str0ng!Pass" "en" none none 0 "j1" "j2" 3
          true).2
        "Bob" "a@B.COM" "Als0G00d!x" "en" none none 10 "j3" "j4" 4 true).1.message =
      "Email already registered") :=
  ⟨by decide, by decide, by decide, by decide, by decide,
   register_duplicate_email regdb "Ann" "A@B.com" "Str0ng!Pass" "en" "Bob" "a@B.COM"
     "Als0G00d!x" "en" none none none none 0 10 "j1" "j2" "j3" "j4" 3 4 true true
     (by decide) (by decide) (by decide) (by decide) (by decide)⟩

/-! ## Claim C1: one session per issued access token -/

/-- C1 counterexample: when the session-store insert fails
(`insertOk = false`), `create_user_session` swallows the error and
`register_user` still reports success and hands out the access token,
whose `jti` then has no session record at all. -/
theorem register_success_without_session :
    (register_user regdb "Ann" "ann@example.com" "Str0ng!Pass" "en" none none 0 "jA" "jR" 3
      false).1.success = true ∧
    ((register_user regdb "Ann" "ann@example.com" "Str0ng!Pass" "en" none none 0 "jA" "jR" 3
      false).1.access_token.map Token.jti = some "jA") ∧
    (register_user regdb "Ann" "ann@example.com" "Str0ng!Pass" "en" none none 0 "jA" "jR" 3
      false).2.sessions = [] := by
  decide

/-- C1 amended: when the session-store insert succeeds and the freshly
drawn `jti` is not already a session token (guaranteed by the random
source), a successful `register_user` or `authenticate_user` leaves exactly
one session record carrying the issued access token's `jti`; but if the
insert fails, the failure is swallowed and success is still reported with a
token that has no session record (see the counterexample). -/
theorem token_has_one_session (db : DBState) (n e p l : String)
    (ph b ip ua : Option String) (now : Nat) (jA jR : String) (salt : Nat)
    (e2 p2 : String) (now2 : Nat) (jA2 jR2 : String)
    (hfresh : ∀ s ∈ db.sessions, s.session_token ≠ jA)
    (hfresh2 : ∀ s ∈ db.sessions, s.session_token ≠ jA2) :
    ((register_user db n e p l ph b now jA jR salt true).1.success = true →
      (register_user db n e p l ph b now jA jR salt true).1.access_token.map Token.jti =
        some jA ∧
      ((register_user db n e p l ph b now jA jR salt true).2.sessions.filter
        (fun s => s.session_token == jA)).length = 1) ∧
    ((authenticate_user db e2 p2 ip ua now2 jA2 jR2 true).1.success = true →
      (authenticate_user db e2 p2 ip ua now2 jA2 jR2 true).1.access_token.map Token.jti =
        some jA2 ∧
      ((authenticate_user db e2 p2 ip ua now2 jA2 jR2 true).2.sessions.filter
        (fun s => s.session_token == jA2)).length = 1) := by
  have hdupA : (db.sessions.any (fun s => s.session_token == jA)) = false := by
    rw [List.any_eq_false]
    intro x hx
    simpa using hfresh x hx
  have hdupB : (db.sessions.any (fun s => s.session_token == jA2)) = false := by
    rw [List.any_eq_false]
    intro x hx
    simpa using hfresh2 x hx
  have hfilA : (db.sessions.filter (fun s => s.session_token == jA)) = [] := by
    rw [List.filter_eq_nil_iff]
    intro x hx
    simpa using hfresh x hx
  have hfilB : (db.sessions.filter (fun s => s.session_token == jA2)) = [] := by
    rw [List.filter_eq_nil_iff]
    intro x hx
    simpa using hfresh2 x hx
  constructor
  · intro h
    by_cases h1 : (decide (n = "") || decide (pyStrip n = "")) = true
    · simp [register_user, h1] at h
    by_cases h2 : (decide (e = "") || !validate_email e) = true
    · simp [register_user, h1, h2] at h
    rcases hvp : validate_password p with ⟨bb, errs⟩
    cases bb with
    | false => simp [register_user, h1, h2, hvp] at h
    | true =>
      by_cases h3 : (findUserByEmail db (normalizeEmail e)).isSome = true
      · simp [register_user, h1, h2, hvp, h3] at h
      rcases hsp : set_password p salt with err | hash
      · simp [register_user, h1, h2, hvp, h3, hsp] at h
      simp [register_user, h1, h2, hvp, h3, hsp, create_user_session, hdupA,
        create_access_token, List.filter_append, hfilA]
  · intro h
    by_cases h1 : (decide (e2 = "") || decide (p2 = "")) = true
    · simp [authenticate_user, h1] at h
    rcases hf : findActiveUserByEmail db (normalizeEmail e2) with _ | u
    · simp [authenticate_user, h1, hf] at h
    rcases hcp : check_password p2 u.password_hash with err | bb
    · simp [authenticate_user, h1, hf, hcp] at h
    cases bb with
    | false => simp [authenticate_user, h1, hf, hcp] at h
    | true =>
      simp [authenticate_user, h1, hf, hcp, create_user_session, hdupB,
        create_access_token, List.filter_append, hfilB]

/-- Witness for the amended C1 theorem: registering Carol and logging Ann
in against `wdb` each leave exactly one session for the fresh token. -/
theorem token_has_one_session_witness :
    (∀ s ∈ wdb.sessions, s.session_token ≠ "jNew1") ∧
    (∀ s ∈ wdb.sessions, s.session_token ≠ "jNew2") ∧
    (((register_user wdb "Carol" "carol@example.com" "Str0ng!Pass" "en" none none 200
        "jNew1" "jR1" 5 true).1.success = true →
      (register_user wdb "Carol" "carol@example.com" "Str0ng!Pass" "en" none none 200
        "jNew1" "jR1" 5 true).1.access_token.map Token.jti = some "jNew1" ∧
      ((register_user wdb "Carol" "carol@example.com" "Str0ng!Pass" "en" none none 200
        "jNew1" "jR1" 5 true).2.sessions.filter
          (fun s => s.session_token == "jNew1")).length = 1) ∧
     ((authenticate_user wdb "ann@example.com" "Str0ng!Pass" none none 200 "jNew2" "jR2"
        true).1.success = true →
      (authenticate_user wdb "ann@example.com" "Str0ng!Pass" none none 200 "jNew2" "jR2"
        true).1.access_token.map Token.jti = some "jNew2" ∧
      ((authenticate_user wdb "ann@example.com" "Str0ng!Pass" none none 200 "jNew2" "jR2"
        true).2.sessions.filter (fun s => s.session_token == "jNew2")).length = 1)) ∧
    (register_user wdb "Carol" "carol@example.com" "Str0ng!Pass" "en" none none 200
      "jNew1" "jR1" 5 true).1.success = true ∧
    (authenticate_user wdb "ann@example.com" "Str0ng!Pass" none none 200 "jNew2" "jR2"
      true).1.success = true :=
  ⟨by decide, by decide,
   token_has_one_session wdb "Carol" "carol@example.com" "Str0ng!Pass" "en" none none
     none none 200 "jNew1" "jR1" 5 "ann@example.com" "Str0ng!Pass" 200 "jNew2" "jR2"
     (by decide) (by decide),
   by decide, by decide⟩
